import Mathlib

/-!
Shallow embedding of the message mutation resolvers of
src/iris/mutations/message.js (the addMessage and deleteMessage
GraphQL mutations of the spectrum chat platform), together with
theorems settling the specification claims about them.

Modelling conventions.

External collaborators (thread store, message store, permission
lookups, participant registry, image uploader, language detector,
per-request loaders) are code of this repository that is not under
src/.  Following the interface contracts of the specification they
are modelled as per-request environment records: each collaborator
call made by the resolver appears as one field holding the result
the collaborator would produce on that call (a success value or a
failure message), and every mutation-issuing call is additionally
recorded in an effect trace.

A JavaScript async resolver can finish in three observably distinct
ways at the API boundary: resolve with a normal value, resolve with
a returned UserError value, or reject (a thrown error).  The
Outcome type keeps the three apart, and JsError keeps apart thrown
UserError values, TypeError crashes from dereferencing null, and
raw upstream rejections.

JSON.parse / JSON.stringify of a draftjs document are treated as an
identity round trip: the content body of a draftjs message is
carried as an already parsed document value.  Calling JSON.parse on
a body that is not a document is modelled as a thrown parse error.
-/

/-- Result of one call to an external collaborator: the value it
returned, or the message of the error it rejected with. -/
inductive Res (α : Type) : Type
  | ok (a : α)
  | err (msg : String)
deriving DecidableEq, Repr

/-- Role and reputation record of a user in a community or channel,
as returned by the permission lookups (spec section 6). -/
structure Permissions where
  reputation : Int
  isModerator : Bool
  isOwner : Bool
deriving DecidableEq, Repr

/-- Thread metadata returned by getThread and by the thread loader. -/
structure Thread where
  communityId : String
  channelId : String
  watercooler : Bool
deriving DecidableEq, Repr

/-- File metadata of a media message. -/
structure FileMeta where
  name : String
  size : Nat
  type : String
deriving DecidableEq, Repr

/-- One content block of a parsed draftjs document.  The data field
is the block data object, carried as a list of key-value pairs. -/
structure Block where
  type : String
  text : String
  data : List (String × String)
deriving DecidableEq, Repr

/-- A parsed draftjs document: its list of content blocks. -/
structure DraftDoc where
  blocks : List Block
deriving DecidableEq, Repr

/-- Content body of a message: a plain string, or a parsed draftjs
document. -/
inductive MsgBody : Type
  | str (s : String)
  | draft (d : DraftDoc)
deriving DecidableEq, Repr

/-- The message argument of the addMessage mutation. -/
structure MessageInput where
  threadId : String
  threadType : String
  messageType : String
  body : MsgBody
  file : Option FileMeta
deriving DecidableEq, Repr

/-- A message record as returned by the message store: the input
fields plus the store-assigned id and the sender id. -/
structure StoredMessage where
  id : String
  threadId : String
  threadType : String
  messageType : String
  body : MsgBody
  file : Option FileMeta
  senderId : String
deriving DecidableEq, Repr

/-- The contextPermissions view attached to a returned message.
The communityId field is present only on the media path. -/
structure ContextPermissions where
  communityId : Option String
  reputation : Int
  isModerator : Bool
  isOwner : Bool
deriving DecidableEq, Repr

/-- A message as returned by addMessage: the stored record, with or
without an attached contextPermissions view. -/
structure EnrichedMessage where
  message : StoredMessage
  contextPermissions : Option ContextPermissions
deriving DecidableEq, Repr

/-- A thrown JavaScript error: a thrown UserError, a TypeError from
dereferencing null, or a raw upstream rejection passed through. -/
inductive JsError : Type
  | userError (msg : String)
  | typeError (msg : String)
  | raw (msg : String)
deriving DecidableEq, Repr

/-- How a resolver finishes at the API boundary: a normal value, a
returned UserError value, or a rejection. -/
inductive Outcome (α : Type) : Type
  | ok (a : α)
  | errorValue (msg : String)
  | thrown (e : JsError)
deriving DecidableEq, Repr

/-- One mutation-issuing call to an external store, recorded in the
order the resolver issues it. -/
inductive Effect : Type
  | setDMThreadLastActive (threadId : String)
  | setUserLastSeenInDMThread (threadId : String) (userId : String)
  | createParticipant (threadId : String) (userId : String)
  | createParticipantNoNotifications (threadId : String) (userId : String)
  | storeMessageEff (m : MessageInput) (senderId : String)
  | deleteMessageEff (deleterId : String) (messageId : String)
  | deleteParticipant (threadId : String) (userId : String)
deriving DecidableEq, Repr

/-- Error message of the unauthenticated addMessage branch. -/
def signInToSendMsg : String := "You must be signed in to send a message."

/-- Error message of the unauthenticated deleteMessage branch. -/
def signInToDeleteMsg : String := "You must be signed in to delete a message."

/-- Error message when the message to delete does not exist. -/
def msgNotExistMsg : String := "This message does not exist."

/-- Error message when a non-sender tries to delete a message of a
direct message thread. -/
def ownMessagesOnlyMsg : String := "You can only delete your own messages."

/-- Error message when a non-sender without a moderation role tries
to delete a channel message. -/
def noPermissionMsg : String := "You don\x27t have permission to delete this message."

/-- Error message of the unknown message type branch. -/
def unknownMessageTypeMsg : String := "Unknown message type"

/-- Message of the TypeError thrown when thread.communityId is read
off a null thread in the deleteMessage authorization path. -/
def nullThreadTypeErrMsg : String := "Cannot read property communityId of null"

/-- Message of the TypeError thrown when isOwner is read off a null
permission record in the canModerate expression. -/
def nullPermsTypeErrMsg : String := "Cannot read property isOwner of null"

/-- Message of the TypeError thrown when communityId is destructured
off a null thread in the enrichment step of addMessage. -/
def nullLoadedThreadMsg : String := "Cannot destructure property communityId of null"

/-- Message of the TypeError thrown when name is read off a null
file after a media upload. -/
def nullFileMsg : String := "Cannot read property name of null"

/-- Message of the SyntaxError thrown by JSON.parse on a draftjs
body that is not a document. -/
def jsonParseErrMsg : String := "Unexpected token in JSON"

/-- Per-request environment of the addMessage resolver: the result
each external collaborator call would produce on this request. -/
structure AddEnv where
  getThread : Res (Option Thread)
  detect : Res String
  upload : Res String
  store : Res String
  loadThread : Res (Option Thread)
  loadPerms : Res (Option Permissions)
deriving DecidableEq, Repr

/-- Per-request environment of the deleteMessage resolver. -/
structure DeleteEnv where
  getMessage : Res (Option StoredMessage)
  getThread : Res (Option Thread)
  communityPerms : Res (Option Permissions)
  channelPerms : Res (Option Permissions)
  deleteResult : Res Unit
  hasMoreMessages : Res Bool
  deleteParticipantResult : Res Unit
deriving DecidableEq, Repr

/-- Language tagging of a parsed draftjs document, lines 74 to 92 of
message.js.  Detection is attempted only when the first block is a
code block; a detector exception leaves the document unchanged; the
data of the first block is replaced when the detected name is truthy
and differs from Unknown (an empty string is falsy in JavaScript). -/
def tagDraftDoc (d : DraftDoc) (detect : Res String) : DraftDoc :=
  match d.blocks with
  | [] => d
  | b0 :: rest =>
    if b0.type == "code-block" then
      match detect with
      | .err _ => d
      | .ok lang =>
        if lang != "" && lang != "Unknown" then
          ⟨{ b0 with data := [("syntax", lang.toLower)] } :: rest⟩
        else d
    else d

/-- The draftjs preprocessing of the text/draftjs branch: a text
message passes unchanged; a draftjs message has its body parsed and
language tagged; parsing a non-document body throws. -/
def draftProcess (msg : MessageInput) (detect : Res String) : Res MessageInput :=
  if msg.messageType == "draftjs" then
    match msg.body with
    | .str _ => .err jsonParseErrMsg
    | .draft d => .ok { msg with body := .draft (tagDraftDoc d detect) }
  else .ok msg

/-- The record the message store returns for a stored message: the
input fields plus the assigned id and the sender id (spec section 4,
the store assigns identity and returns the stored record). -/
def mkStored (msg : MessageInput) (uid : String) (newId : String) : StoredMessage :=
  { id := newId, threadId := msg.threadId, threadType := msg.threadType,
    messageType := msg.messageType, body := msg.body, file := msg.file,
    senderId := uid }

/-- The enrichment step of addMessage, lines 96 to 112 and 133 to
150 of message.js: a stored direct message thread record is returned
unmodified; otherwise the thread loader and the permission loader
are consulted and a contextPermissions view is attached, with
defaults when no permission record exists, and with communityId
included only on the media path.  Any rejection inside this step is
caught by the catch of the chain and returned as a UserError value
carrying the message of the error. -/
def enrichStored (stored : StoredMessage) (includeCid : Bool)
    (loadThread : Res (Option Thread)) (loadPerms : Res (Option Permissions)) :
    Outcome EnrichedMessage :=
  if stored.threadType == "directMessageThread" then
    .ok ⟨stored, none⟩
  else
    match loadThread with
    | .err e => .errorValue e
    | .ok none => .errorValue nullLoadedThreadMsg
    | .ok (some t) =>
      match loadPerms with
      | .err e => .errorValue e
      | .ok p =>
        .ok ⟨stored, some
          { communityId := if includeCid then some t.communityId else none,
            reputation := match p with | some pp => pp.reputation | none => 0,
            isModerator := match p with | some pp => pp.isModerator | none => false,
            isOwner := match p with | some pp => pp.isOwner | none => false }⟩

/-- The pre-dispatch side effects of addMessage, lines 50 to 67 of
message.js: last-active and last-seen updates for a direct message
thread, a notification-enabled participant for a story thread that
exists and is not a watercooler, and a notification-disabled
participant when the thread exists and is a watercooler. -/
def sideEffects (msg : MessageInput) (uid : String) (thread : Option Thread) :
    List Effect :=
  (if msg.threadType == "directMessageThread" then
    [Effect.setDMThreadLastActive msg.threadId,
     Effect.setUserLastSeenInDMThread msg.threadId uid]
   else [])
  ++ (if msg.threadType == "story"
        && (match thread with | some t => !t.watercooler | none => false) then
    [Effect.createParticipant msg.threadId uid]
   else [])
  ++ (match thread with
      | some t =>
        if t.watercooler then
          [Effect.createParticipantNoNotifications msg.threadId uid]
        else []
      | none => [])

/-- The message-type dispatch of addMessage, lines 70 to 154 of
message.js, producing the outcome and the store calls it issues.
Failures of the store or upload chains are caught and returned as
UserError values carrying the message of the error; a JSON parse
failure happens outside the chain and rejects raw. -/
def dispatch (msg : MessageInput) (uid : String) (env : AddEnv) :
    Outcome EnrichedMessage × List Effect :=
  if msg.messageType == "text" || msg.messageType == "draftjs" then
    match draftProcess msg env.detect with
    | .err e => (.thrown (.raw e), [])
    | .ok msg2 =>
      match env.store with
      | .err e => (.errorValue e, [Effect.storeMessageEff msg2 uid])
      | .ok newId =>
        (enrichStored (mkStored msg2 uid newId) false env.loadThread env.loadPerms,
         [Effect.storeMessageEff msg2 uid])
  else if msg.messageType == "media" then
    match env.upload with
    | .err e => (.errorValue e, [])
    | .ok url =>
      match msg.file with
      | none => (.errorValue nullFileMsg, [])
      | some f =>
        let msg2 : MessageInput :=
          { msg with body := .str url,
                     file := some ⟨f.name, f.size, f.type⟩ }
        match env.store with
        | .err e => (.errorValue e, [Effect.storeMessageEff msg2 uid])
        | .ok newId =>
          (enrichStored (mkStored msg2 uid newId) true env.loadThread env.loadPerms,
           [Effect.storeMessageEff msg2 uid])
  else (.errorValue unknownMessageTypeMsg, [])

/-- The addMessage mutation resolver, lines 36 to 155 of message.js.
Returns the outcome at the API boundary and the trace of mutation
calls issued to the external stores. -/
def addMessage (msg : MessageInput) (user : Option String) (env : AddEnv) :
    Outcome EnrichedMessage × List Effect :=
  match user with
  | none => (.errorValue signInToSendMsg, [])
  | some uid =>
    match env.getThread with
    | .err e => (.thrown (.raw e), [])
    | .ok thread =>
      let d := dispatch msg uid env
      (d.1, sideEffects msg uid thread ++ d.2)

/-- Evaluation of the canModerate expression of lines 184 to 188 of
message.js, in JavaScript left-to-right short-circuit order over the
two permission lookup results: reading a flag off an absent record
throws a TypeError. -/
def canModerateOf (chp cp : Option Permissions) : Res Bool :=
  match chp with
  | none => .err nullPermsTypeErrMsg
  | some ch =>
    if ch.isOwner then .ok true
    else
      match cp with
      | none => .err nullPermsTypeErrMsg
      | some c =>
        if c.isOwner then .ok true
        else if ch.isModerator then .ok true
        else .ok c.isModerator

/-- The authorization step of deleteMessage, lines 169 to 193 of
message.js.  Returns none when the request may proceed, or the error
thrown.  Skipped entirely when the requester is the sender. -/
def authorize (m : StoredMessage) (uid : String) (env : DeleteEnv) :
    Option JsError :=
  if m.senderId != uid then
    if m.threadType == "directMessageThread" then
      some (.userError ownMessagesOnlyMsg)
    else
      match env.getThread with
      | .err e => some (.raw e)
      | .ok none => some (.typeError nullThreadTypeErrMsg)
      | .ok (some _t) =>
        match env.communityPerms with
        | .err e => some (.raw e)
        | .ok cp =>
          match env.channelPerms with
          | .err e => some (.raw e)
          | .ok chp =>
            match canModerateOf chp cp with
            | .err e => some (.typeError e)
            | .ok true => none
            | .ok false => some (.userError noPermissionMsg)
  else none

/-- The deleteMessage mutation resolver, lines 156 to 214 of
message.js.  All taxonomy errors on this path are thrown, and no
catch converts upstream rejections. -/
def deleteMessage (msgId : String) (user : Option String) (env : DeleteEnv) :
    Outcome Bool × List Effect :=
  match user with
  | none => (.thrown (.userError signInToDeleteMsg), [])
  | some uid =>
    match env.getMessage with
    | .err e => (.thrown (.raw e), [])
    | .ok none => (.thrown (.userError msgNotExistMsg), [])
    | .ok (some m) =>
      match authorize m uid env with
      | some e => (.thrown e, [])
      | none =>
        match env.deleteResult with
        | .err e => (.thrown (.raw e), [Effect.deleteMessageEff uid msgId])
        | .ok _ =>
          if m.threadType == "directMessageThread" then
            (.ok true, [Effect.deleteMessageEff uid msgId])
          else
            match env.hasMoreMessages with
            | .err e => (.thrown (.raw e), [Effect.deleteMessageEff uid msgId])
            | .ok true => (.ok true, [Effect.deleteMessageEff uid msgId])
            | .ok false =>
              match env.deleteParticipantResult with
              | .err e =>
                (.thrown (.raw e),
                 [Effect.deleteMessageEff uid msgId,
                  Effect.deleteParticipant m.threadId m.senderId])
              | .ok _ =>
                (.ok true,
                 [Effect.deleteMessageEff uid msgId,
                  Effect.deleteParticipant m.threadId m.senderId])

/-! Sample values shared by the concrete witnesses below. -/

/-- A stored channel message authored by alice in thread t1. -/
def storedAliceStory : StoredMessage :=
  { id := "m1", threadId := "t1", threadType := "story",
    messageType := "text", body := .str "hi", file := none,
    senderId := "alice" }

/-- A stored direct message authored by alice. -/
def storedAliceDM : StoredMessage :=
  { storedAliceStory with threadType := "directMessageThread" }

/-- A thread of community c1 and channel ch1, not a watercooler. -/
def threadPlain : Thread :=
  { communityId := "c1", channelId := "ch1", watercooler := false }

/-- A permission record with every flag off. -/
def permsMember : Permissions :=
  { reputation := 0, isModerator := false, isOwner := false }

/-- A permission record of a community owner. -/
def permsOwner : Permissions :=
  { reputation := 5, isModerator := false, isOwner := true }

/-- A delete environment where every store call succeeds, the thread
exists and the requester holds no moderation role anywhere. -/
def delEnvPlain : DeleteEnv :=
  { getMessage := .ok (some storedAliceStory),
    getThread := .ok (some threadPlain),
    communityPerms := .ok (some permsMember),
    channelPerms := .ok (some permsMember),
    deleteResult := .ok (),
    hasMoreMessages := .ok true,
    deleteParticipantResult := .ok () }

/-- C4: an unauthenticated addMessage call returns the
Unauthenticated UserError value, an unauthenticated deleteMessage
call finishes with the Unauthenticated UserError, and in both cases
the trace of mutation calls is empty: no message is stored or
deleted, no participant record is created or removed, and no
timestamp is updated. -/
theorem unauthenticated_no_mutation :
    (∀ (msg : MessageInput) (env : AddEnv),
      addMessage msg none env = (.errorValue signInToSendMsg, [])) ∧
    (∀ (msgId : String) (env : DeleteEnv),
      deleteMessage msgId none env =
        (.thrown (.userError signInToDeleteMsg), [])) :=
  ⟨fun _ _ => rfl, fun _ _ => rfl⟩

/-- C3: with the permission lookup results of the environment left
arbitrary, a deletion by the sender of the message finishes with
true whenever the store calls succeed (no authorization check is
consulted), and a deletion by a non-sender of a message of a direct
message thread always finishes with the Forbidden UserError of line
172, whatever roles the environment would report. -/
theorem sender_delete_and_dm_forbidden
    (msgId uid : String) (env : DeleteEnv) (m : StoredMessage) (b : Bool)
    (hm : env.getMessage = .ok (some m))
    (hdel : env.deleteResult = .ok ())
    (hmore : env.hasMoreMessages = .ok b)
    (hpart : env.deleteParticipantResult = .ok ()) :
    (m.senderId = uid → (deleteMessage msgId (some uid) env).1 = .ok true) ∧
    (m.senderId ≠ uid → m.threadType = "directMessageThread" →
      (deleteMessage msgId (some uid) env).1 =
        .thrown (.userError ownMessagesOnlyMsg)) := by
  constructor
  · intro hs
    have hauth : authorize m uid env = none := by
      simp [authorize, hs]
    cases b with
    | false =>
      simp only [deleteMessage, hm, hauth, hdel, hmore, hpart]
      split <;> rfl
    | true =>
      simp only [deleteMessage, hm, hauth, hdel, hmore]
      split <;> rfl
  · intro hs ht
    have hauth : authorize m uid env =
        some (.userError ownMessagesOnlyMsg) := by
      simp [authorize, hs, ht]
    simp [deleteMessage, hm, hauth]

/-- Witness for C3 at concrete inputs: alice deletes her own story
message successfully, and bob cannot delete her direct message even
though the environment reports him a community owner. -/
theorem sender_delete_and_dm_forbidden_witness :
    (deleteMessage "m1" (some "alice") delEnvPlain).1 = .ok true ∧
    (deleteMessage "m1" (some "bob")
        { delEnvPlain with
            getMessage := .ok (some storedAliceDM),
            communityPerms := .ok (some permsOwner),
            channelPerms := .ok (some permsOwner) }).1 =
      .thrown (.userError ownMessagesOnlyMsg) := by
  constructor
  · exact (sender_delete_and_dm_forbidden "m1" "alice" delEnvPlain
      storedAliceStory true rfl rfl rfl rfl).1 rfl
  · exact (sender_delete_and_dm_forbidden "m1" "bob"
      { delEnvPlain with
          getMessage := .ok (some storedAliceDM),
          communityPerms := .ok (some permsOwner),
          channelPerms := .ok (some permsOwner) }
      storedAliceDM true rfl rfl rfl rfl).2 (by decide) rfl

/-- Evaluation of canModerateOf when both permission records exist:
it is the disjunction of the four role flags, in source order. -/
theorem canModerateOf_some (ch c : Permissions) :
    canModerateOf (some ch) (some c) =
      .ok (ch.isOwner || c.isOwner || ch.isModerator || c.isModerator) := by
  rcases ch with ⟨r1, mo1, ow1⟩
  rcases c with ⟨r2, mo2, ow2⟩
  cases ow1 <;> cases ow2 <;> cases mo1 <;> cases mo2 <;> rfl

/-- A delete environment where the requester is a community owner
but holds no channel permission record at all. -/
def delEnvNullChannel : DeleteEnv :=
  { delEnvPlain with
      communityPerms := .ok (some permsOwner),
      channelPerms := .ok none }

/-- Counterexample to C1: bob asks to delete a story message of
alice; the environment reports bob a community owner (isOwner true)
but reports no channel permission record for him.  The claim then
demands success, yet the resolver finishes with a thrown TypeError
from reading isOwner off null at line 185 - neither success nor the
Forbidden UserError. -/
theorem delete_moderation_counterexample :
    (deleteMessage "m1" (some "bob") delEnvNullChannel).1 =
      .thrown (.typeError nullPermsTypeErrMsg) ∧
    delEnvNullChannel.communityPerms = .ok (some permsOwner) ∧
    permsOwner.isOwner = true ∧
    (deleteMessage "m1" (some "bob") delEnvNullChannel).1 ≠ .ok true ∧
    (deleteMessage "m1" (some "bob") delEnvNullChannel).1 ≠
      .thrown (.userError noPermissionMsg) := by
  refine ⟨rfl, rfl, rfl, ?_, ?_⟩ <;> decide

/-- C1 amended: for a deletion request by an authenticated
non-sender on a message of a non direct-message thread, provided
the thread exists and both the community and the channel permission
lookups return a record (when either record is absent the resolver
instead crashes with a TypeError, as the counterexample shows), and
the store calls succeed, the deletion finishes with true exactly
when the requester is channel owner, community owner, channel
moderator or community moderator, and finishes with the Forbidden
UserError when none of the four flags holds. -/
theorem delete_moderation_amended
    (msgId uid : String) (env : DeleteEnv) (m : StoredMessage) (t : Thread)
    (cp chp : Permissions) (b : Bool)
    (hm : env.getMessage = .ok (some m))
    (hs : m.senderId ≠ uid)
    (ht : m.threadType ≠ "directMessageThread")
    (hth : env.getThread = .ok (some t))
    (hcp : env.communityPerms = .ok (some cp))
    (hchp : env.channelPerms = .ok (some chp))
    (hdel : env.deleteResult = .ok ())
    (hmore : env.hasMoreMessages = .ok b)
    (hpart : env.deleteParticipantResult = .ok ()) :
    ((deleteMessage msgId (some uid) env).1 = .ok true ↔
      (chp.isOwner || cp.isOwner || chp.isModerator || cp.isModerator) = true) ∧
    ((chp.isOwner || cp.isOwner || chp.isModerator || cp.isModerator) = false →
      (deleteMessage msgId (some uid) env).1 =
        .thrown (.userError noPermissionMsg)) := by
  cases hflag : (chp.isOwner || cp.isOwner || chp.isModerator || cp.isModerator) with
  | true =>
    have hauth : authorize m uid env = none := by
      simp [authorize, hs, ht, hth, hcp, hchp, canModerateOf_some, hflag]
    have hok : (deleteMessage msgId (some uid) env).1 = .ok true := by
      cases b with
      | false => simp [deleteMessage, hm, hauth, hdel, hmore, hpart, ht]
      | true => simp [deleteMessage, hm, hauth, hdel, hmore, ht]
    exact ⟨by simp [hok], by intro h; simp at h⟩
  | false =>
    have hauth : authorize m uid env =
        some (.userError noPermissionMsg) := by
      simp [authorize, hs, ht, hth, hcp, hchp, canModerateOf_some, hflag]
    have hko : (deleteMessage msgId (some uid) env).1 =
        .thrown (.userError noPermissionMsg) := by
      simp [deleteMessage, hm, hauth]
    exact ⟨by simp [hko], fun _ => hko⟩

/-- Witness for the amended C1 at concrete inputs: bob, reported a
community owner with a channel record present, deletes a story
message of alice; and carl, with both records present and every
flag off, gets the Forbidden UserError. -/
theorem delete_moderation_amended_witness :
    (deleteMessage "m1" (some "bob")
        { delEnvPlain with communityPerms := .ok (some permsOwner) }).1 =
      .ok true ∧
    (deleteMessage "m1" (some "carl") delEnvPlain).1 =
      .thrown (.userError noPermissionMsg) := by
  constructor
  · exact (delete_moderation_amended "m1" "bob"
      { delEnvPlain with communityPerms := .ok (some permsOwner) }
      storedAliceStory threadPlain permsOwner permsMember true
      rfl (by decide) (by decide) rfl rfl rfl rfl rfl rfl).1.mpr (by decide)
  · exact (delete_moderation_amended "m1" "carl" delEnvPlain
      storedAliceStory threadPlain permsMember permsMember true
      rfl (by decide) (by decide) rfl rfl rfl rfl rfl rfl).2 (by decide)

/-- C8: a deletion that passes authorization and whose store calls
succeed finishes with true; for a direct message thread no
participant retraction call is ever issued; for any other thread
kind the participant record of the original sender is removed
exactly when the store reports no remaining messages of that sender
in the thread, and retained (no removal call) when messages remain,
the outcome being true either way. -/
theorem delete_participant_retraction
    (msgId uid : String) (env : DeleteEnv) (m : StoredMessage) (b : Bool)
    (hm : env.getMessage = .ok (some m))
    (hauth : authorize m uid env = none)
    (hdel : env.deleteResult = .ok ())
    (hmore : env.hasMoreMessages = .ok b)
    (hpart : env.deleteParticipantResult = .ok ()) :
    (deleteMessage msgId (some uid) env).1 = .ok true ∧
    (m.threadType = "directMessageThread" →
      Effect.deleteParticipant m.threadId m.senderId ∉
        (deleteMessage msgId (some uid) env).2) ∧
    (m.threadType ≠ "directMessageThread" →
      (Effect.deleteParticipant m.threadId m.senderId ∈
        (deleteMessage msgId (some uid) env).2 ↔ b = false)) := by
  by_cases ht : m.threadType = "directMessageThread"
  · have hres : deleteMessage msgId (some uid) env =
        (.ok true, [Effect.deleteMessageEff uid msgId]) := by
      simp [deleteMessage, hm, hauth, hdel, ht]
    refine ⟨by simp [hres], by intro _; simp [hres], by intro h; exact absurd ht h⟩
  · cases b with
    | false =>
      have hres : deleteMessage msgId (some uid) env =
          (.ok true, [Effect.deleteMessageEff uid msgId,
                      Effect.deleteParticipant m.threadId m.senderId]) := by
        simp [deleteMessage, hm, hauth, hdel, hmore, hpart, ht]
      refine ⟨by simp [hres], by intro h; exact absurd h ht, by intro _; simp [hres]⟩
    | true =>
      have hres : deleteMessage msgId (some uid) env =
          (.ok true, [Effect.deleteMessageEff uid msgId]) := by
        simp [deleteMessage, hm, hauth, hdel, hmore, ht]
      refine ⟨by simp [hres], by intro h; exact absurd h ht, by intro _; simp [hres]⟩

/-- Witness for C8 at concrete inputs: alice deletes her own story
message while other messages of hers remain, so the outcome is true
and her participant record is not removed. -/
theorem delete_participant_retraction_witness :
    (deleteMessage "m1" (some "alice") delEnvPlain).1 = .ok true ∧
    (Effect.deleteParticipant "t1" "alice" ∈
        (deleteMessage "m1" (some "alice") delEnvPlain).2 ↔ False) := by
  have h := delete_participant_retraction "m1" "alice" delEnvPlain
    storedAliceStory true rfl (by decide) rfl rfl rfl
  refine ⟨h.1, ?_⟩
  have h2 := h.2.2 (by decide)
  simp only [show storedAliceStory.threadId = "t1" from rfl,
    show storedAliceStory.senderId = "alice" from rfl] at h2
  simp [h2]

/-- Every effect issued by the message-type dispatch is a store
call: the participant registry is only touched before dispatch. -/
theorem dispatch_effects_are_store (msg : MessageInput) (uid : String)
    (env : AddEnv) :
    ∀ e ∈ (dispatch msg uid env).2, ∃ m2 u, e = Effect.storeMessageEff m2 u := by
  intro e he
  unfold dispatch at he
  repeat' split at he
  all_goals simp_all

/-- An effect that is not a store call never appears in the dispatch
part of the trace. -/
theorem not_store_not_mem_dispatch (msg : MessageInput) (uid : String)
    (env : AddEnv) (e : Effect)
    (he : ∀ m2 u, e ≠ Effect.storeMessageEff m2 u) :
    e ∉ (dispatch msg uid env).2 := by
  intro hmem
  obtain ⟨m2, u, h⟩ := dispatch_effects_are_store msg uid env e hmem
  exact he m2 u h

/-- The trace of an authenticated addMessage call whose thread fetch
succeeds is the pre-dispatch side effects followed by the store
calls of the dispatch. -/
theorem addMessage_trace (msg : MessageInput) (uid : String) (env : AddEnv)
    (thopt : Option Thread) (hth : env.getThread = .ok thopt) :
    (addMessage msg (some uid) env).2 =
      sideEffects msg uid thopt ++ (dispatch msg uid env).2 := by
  simp [addMessage, hth]

/-- A story message input in thread t1. -/
def msgStoryText : MessageInput :=
  { threadId := "t1", threadType := "story", messageType := "text",
    body := .str "hi", file := none }

/-- An add environment where the thread t1 exists and every
collaborator call succeeds, with no permission record found by the
enrichment loader. -/
def addEnvStory : AddEnv :=
  { getThread := .ok (some threadPlain), detect := .ok "Unknown",
    upload := .ok "https://img.example/1", store := .ok "m9",
    loadThread := .ok (some threadPlain), loadPerms := .ok none }

/-- C5: in an authenticated submission, when the thread exists and
the message names a story thread that is not a watercooler, a
notification-enabled participant registration for the sender is
issued and no notification-disabled one; when the thread exists and
is a watercooler, a notification-disabled registration is issued
and no notification-enabled one; when the thread does not exist,
neither registration is issued; and in no run are both issued. -/
theorem participant_registration
    (msg : MessageInput) (uid : String) (env : AddEnv) :
    (∀ t, env.getThread = .ok (some t) →
      ((msg.threadType = "story" ∧ t.watercooler = false →
        Effect.createParticipant msg.threadId uid ∈
          (addMessage msg (some uid) env).2 ∧
        Effect.createParticipantNoNotifications msg.threadId uid ∉
          (addMessage msg (some uid) env).2) ∧
       (t.watercooler = true →
        Effect.createParticipantNoNotifications msg.threadId uid ∈
          (addMessage msg (some uid) env).2 ∧
        Effect.createParticipant msg.threadId uid ∉
          (addMessage msg (some uid) env).2))) ∧
    (env.getThread = .ok none →
      Effect.createParticipant msg.threadId uid ∉
        (addMessage msg (some uid) env).2 ∧
      Effect.createParticipantNoNotifications msg.threadId uid ∉
        (addMessage msg (some uid) env).2) ∧
    ¬(Effect.createParticipant msg.threadId uid ∈
        (addMessage msg (some uid) env).2 ∧
      Effect.createParticipantNoNotifications msg.threadId uid ∈
        (addMessage msg (some uid) env).2) := by
  have hstoreP : ∀ m2 u, Effect.createParticipant msg.threadId uid ≠
      Effect.storeMessageEff m2 u := by intro m2 u h; cases h
  have hstoreN : ∀ m2 u,
      Effect.createParticipantNoNotifications msg.threadId uid ≠
      Effect.storeMessageEff m2 u := by intro m2 u h; cases h
  have hdisP := not_store_not_mem_dispatch msg uid env _ hstoreP
  have hdisN := not_store_not_mem_dispatch msg uid env _ hstoreN
  refine ⟨?_, ?_, ?_⟩
  · intro t hth
    have htr := addMessage_trace msg uid env (some t) hth
    constructor
    · rintro ⟨hstory, hwc⟩
      have hside : sideEffects msg uid (some t) =
          [Effect.createParticipant msg.threadId uid] := by
        simp [sideEffects, hstory, hwc]
      rw [htr, hside]
      constructor
      · exact List.mem_append_left _ (by simp)
      · intro hmem
        rcases List.mem_append.mp hmem with h | h
        · simp at h
        · exact hdisN h
    · intro hwc
      have htr := addMessage_trace msg uid env (some t) hth
      constructor
      · rw [htr]
        refine List.mem_append_left _ ?_
        simp only [sideEffects, hwc]
        by_cases hdm : msg.threadType == "directMessageThread" <;>
          by_cases hst : msg.threadType == "story" <;> simp_all
      · rw [htr]
        intro hmem
        rcases List.mem_append.mp hmem with h | h
        · simp only [sideEffects, hwc] at h
          by_cases hdm : msg.threadType == "directMessageThread" <;>
            by_cases hst : msg.threadType == "story" <;> simp_all
        · exact hdisP h
  · intro hth
    have htr := addMessage_trace msg uid env none hth
    rw [htr]
    constructor
    · intro hmem
      rcases List.mem_append.mp hmem with h | h
      · simp only [sideEffects] at h
        by_cases hdm : msg.threadType == "directMessageThread" <;> simp_all
      · exact hdisP h
    · intro hmem
      rcases List.mem_append.mp hmem with h | h
      · simp only [sideEffects] at h
        by_cases hdm : msg.threadType == "directMessageThread" <;> simp_all
      · exact hdisN h
  · rintro ⟨hP, hN⟩
    rcases hg : env.getThread with thopt | e
    case err =>
      have : (addMessage msg (some uid) env).2 = [] := by
        simp [addMessage, hg]
      rw [this] at hP
      simp at hP
    case ok =>
      have htr := addMessage_trace msg uid env thopt hg
      rw [htr] at hP hN
      rcases List.mem_append.mp hP with h1 | h1
      case inr => exact hdisP h1
      rcases List.mem_append.mp hN with h2 | h2
      case inr => exact hdisN h2
      rcases thopt with _ | t
      · simp only [sideEffects] at h1
        by_cases hdm : msg.threadType == "directMessageThread" <;> simp_all
      · by_cases hwc : t.watercooler
        · simp only [sideEffects, hwc] at h1
          by_cases hdm : msg.threadType == "directMessageThread" <;>
            by_cases hst : msg.threadType == "story" <;> simp_all
        · simp only [sideEffects] at h2
          by_cases hdm : msg.threadType == "directMessageThread" <;>
            by_cases hst : msg.threadType == "story" <;> simp_all

/-- Witness for C5 at concrete inputs: submitting a text message to
the existing non-watercooler story thread t1 registers alice as a
notification-enabled participant and issues no
notification-disabled registration. -/
theorem participant_registration_witness :
    Effect.createParticipant msgStoryText.threadId "alice" ∈
      (addMessage msgStoryText (some "alice") addEnvStory).2 ∧
    Effect.createParticipantNoNotifications msgStoryText.threadId "alice" ∉
      (addMessage msgStoryText (some "alice") addEnvStory).2 :=
  ((participant_registration msgStoryText "alice" addEnvStory).1
    threadPlain rfl).1 ⟨rfl, rfl⟩

/-- The message rebuilt at lines 87 to 90: the body of msg with the
data of its first block replaced by the syntax tag for L. -/
def taggedMsg (msg : MessageInput) (b0 : Block) (rest : List Block)
    (L : String) : MessageInput :=
  let b2 : Block := { b0 with data := [("syntax", L.toLower)] }
  { msg with body := MsgBody.draft (DraftDoc.mk (b2 :: rest)) }

/-- C6: for an authenticated draftjs submission whose parsed body
has a code block first, with the thread fetch, the store and the
enrichment loaders succeeding: when the detector returns a language
name L (nonempty, since an empty string is falsy at line 84) other
than Unknown, the message handed to the store carries the body
whose first block data holds syntax bound to the lowercase of L;
when the detector returns Unknown or throws, the message handed to
the store is the original one with the block data unchanged, and
the submission still finishes with a normal enriched value. -/
theorem draftjs_language_tagging
    (msg : MessageInput) (uid newId : String) (env : AddEnv)
    (thopt : Option Thread) (t2 : Thread) (popt : Option Permissions)
    (d : DraftDoc) (b0 : Block) (rest : List Block)
    (hmt : msg.messageType = "draftjs")
    (hbody : msg.body = .draft d)
    (hblocks : d.blocks = b0 :: rest)
    (hcode : b0.type = "code-block")
    (hth : env.getThread = .ok thopt)
    (hstore : env.store = .ok newId)
    (hload : env.loadThread = .ok (some t2))
    (hperm : env.loadPerms = .ok popt) :
    (∀ L, env.detect = .ok L → L ≠ "" → L ≠ "Unknown" →
      Effect.storeMessageEff (taggedMsg msg b0 rest L) uid ∈
        (addMessage msg (some uid) env).2) ∧
    ((env.detect = .ok "Unknown" ∨ ∃ e, env.detect = .err e) →
      Effect.storeMessageEff msg uid ∈ (addMessage msg (some uid) env).2 ∧
      ∃ em, (addMessage msg (some uid) env).1 = .ok em) := by
  have hsucc : ∀ s : StoredMessage,
      ∃ em, enrichStored s false env.loadThread env.loadPerms = .ok em := by
    intro s
    unfold enrichStored
    split
    · exact ⟨_, rfl⟩
    · rw [hload, hperm]
      exact ⟨_, rfl⟩
  rcases msg with ⟨tid, tty, mty, body, file⟩
  obtain rfl : mty = "draftjs" := hmt
  obtain rfl : body = MsgBody.draft d := hbody
  rcases d with ⟨blocks⟩
  obtain rfl : blocks = b0 :: rest := hblocks
  have htr := addMessage_trace
    ⟨tid, tty, "draftjs", MsgBody.draft ⟨b0 :: rest⟩, file⟩ uid env thopt hth
  constructor
  · intro L hdet hL1 hL2
    have htag : tagDraftDoc ⟨b0 :: rest⟩ env.detect =
        ⟨{ b0 with data := [("syntax", L.toLower)] } :: rest⟩ := by
      simp [tagDraftDoc, hcode, hdet, hL1, hL2]
    have hdisp : (dispatch ⟨tid, tty, "draftjs",
        MsgBody.draft ⟨b0 :: rest⟩, file⟩ uid env).2 =
        [Effect.storeMessageEff
          (taggedMsg ⟨tid, tty, "draftjs", MsgBody.draft ⟨b0 :: rest⟩, file⟩
            b0 rest L) uid] := by
      simp [dispatch, draftProcess, htag, hstore, taggedMsg]
    rw [htr, hdisp]
    exact List.mem_append_right _ (by simp)
  · intro hdet
    have htag : tagDraftDoc ⟨b0 :: rest⟩ env.detect = ⟨b0 :: rest⟩ := by
      rcases hdet with h | ⟨e, h⟩
      · simp [tagDraftDoc, hcode, h]
      · simp [tagDraftDoc, hcode, h]
    have hdisp : dispatch ⟨tid, tty, "draftjs",
        MsgBody.draft ⟨b0 :: rest⟩, file⟩ uid env =
        (enrichStored
          (mkStored ⟨tid, tty, "draftjs", MsgBody.draft ⟨b0 :: rest⟩, file⟩
            uid newId) false env.loadThread env.loadPerms,
         [Effect.storeMessageEff
           ⟨tid, tty, "draftjs", MsgBody.draft ⟨b0 :: rest⟩, file⟩ uid]) := by
      simp [dispatch, draftProcess, htag, hstore]
    refine ⟨?_, ?_⟩
    · rw [htr, hdisp]
      exact List.mem_append_right _ (by simp)
    · obtain ⟨em, hem⟩ := hsucc
        (mkStored ⟨tid, tty, "draftjs", MsgBody.draft ⟨b0 :: rest⟩, file⟩
          uid newId)
      refine ⟨em, ?_⟩
      have h1 : (addMessage ⟨tid, tty, "draftjs",
          MsgBody.draft ⟨b0 :: rest⟩, file⟩ (some uid) env).1 =
          (dispatch ⟨tid, tty, "draftjs",
            MsgBody.draft ⟨b0 :: rest⟩, file⟩ uid env).1 := by
        simp [addMessage, hth]
      rw [h1, hdisp, hem]

/-- A code block whose data already holds unrelated pairs. -/
def codeBlock : Block :=
  { type := "code-block", text := "var x = 1;", data := [("foo", "bar")] }

/-- A draftjs message input whose body is a single code block. -/
def msgDraftCode : MessageInput :=
  { threadId := "t1", threadType := "story", messageType := "draftjs",
    body := .draft ⟨[codeBlock]⟩, file := none }

/-- Witness for C6 at concrete inputs: the detector reports
JavaScript for the code block, and the stored body carries the
lowercase tag. -/
theorem draftjs_language_tagging_witness :
    Effect.storeMessageEff (taggedMsg msgDraftCode codeBlock [] "JavaScript")
      "alice" ∈
      (addMessage msgDraftCode (some "alice")
        { addEnvStory with detect := .ok "JavaScript" }).2 :=
  (draftjs_language_tagging msgDraftCode "alice" "m9"
    { addEnvStory with detect := .ok "JavaScript" }
    (some threadPlain) threadPlain none ⟨[codeBlock]⟩ codeBlock []
    rfl rfl rfl rfl rfl rfl rfl rfl).1 "JavaScript" rfl (by decide) (by decide)

/-- C10: language tagging replaces the data object of the first
block wholesale with the single pair binding syntax to the
lowercase language name, discarding whatever pairs were present,
and leaves every other block of the document unchanged: the result
does not depend on the previous data of the first block. -/
theorem code_block_data_replaced
    (b0 : Block) (rest : List Block) (L : String)
    (hcode : b0.type = "code-block") (hL1 : L ≠ "") (hL2 : L ≠ "Unknown") :
    tagDraftDoc ⟨b0 :: rest⟩ (.ok L) =
      ⟨{ type := b0.type, text := b0.text,
         data := [("syntax", L.toLower)] } :: rest⟩ := by
  simp [tagDraftDoc, hcode, hL1, hL2]

/-- Witness for C10 at concrete inputs: a code block with two
preexisting data pairs has them discarded in favour of the single
syntax pair, and the following block is untouched. -/
theorem code_block_data_replaced_witness :
    tagDraftDoc
      ⟨[{ type := "code-block", text := "package main",
          data := [("a", "b"), ("c", "d")] },
        { type := "unstyled", text := "after", data := [("keep", "me")] }]⟩
      (.ok "Go") =
      ⟨[{ type := "code-block", text := "package main",
          data := [("syntax", String.toLower "Go")] },
        { type := "unstyled", text := "after", data := [("keep", "me")] }]⟩ :=
  code_block_data_replaced
    { type := "code-block", text := "package main",
      data := [("a", "b"), ("c", "d")] }
    [{ type := "unstyled", text := "after", data := [("keep", "me")] }]
    "Go" rfl (by decide) (by decide)

/-- The pre-dispatch side effects never contain a store call. -/
theorem store_not_mem_sideEffects (msg : MessageInput) (uid : String)
    (thopt : Option Thread) (m2 : MessageInput) (u : String) :
    Effect.storeMessageEff m2 u ∉ sideEffects msg uid thopt := by
  intro h
  unfold sideEffects at h
  rcases thopt with _ | t
  all_goals repeat' split at h
  all_goals simp_all

/-- The message rebuilt at lines 120 to 129: content body set to the
uploaded url and the file field projected to name, size and type. -/
def mediaMsg (msg : MessageInput) (f : FileMeta) (url : String) :
    MessageInput :=
  { msg with body := MsgBody.str url,
             file := some ⟨f.name, f.size, f.type⟩ }

/-- C7: for an authenticated media submission carrying a file, when
the upload succeeds with some url the message handed to the store
has content body equal to that url and file metadata with the name,
size and type of the input file; when the upload fails, no store
call of any message is issued at all. -/
theorem media_message_persistence
    (msg : MessageInput) (uid : String) (env : AddEnv) (f : FileMeta)
    (thopt : Option Thread)
    (hmt : msg.messageType = "media")
    (hf : msg.file = some f)
    (hth : env.getThread = .ok thopt) :
    (∀ url, env.upload = .ok url →
      Effect.storeMessageEff (mediaMsg msg f url) uid ∈
        (addMessage msg (some uid) env).2) ∧
    (∀ e, env.upload = .err e →
      ∀ (m2 : MessageInput) (u : String),
        Effect.storeMessageEff m2 u ∉ (addMessage msg (some uid) env).2) := by
  rcases msg with ⟨tid, tty, mty, body, file⟩
  obtain rfl : mty = "media" := hmt
  obtain rfl : file = some f := hf
  have htr := addMessage_trace
    ⟨tid, tty, "media", body, some f⟩ uid env thopt hth
  constructor
  · intro url hu
    have hdisp : (dispatch ⟨tid, tty, "media", body, some f⟩ uid env).2 =
        [Effect.storeMessageEff
          (mediaMsg ⟨tid, tty, "media", body, some f⟩ f url) uid] := by
      cases hs : env.store with
      | ok newId => simp [dispatch, hu, hs, mediaMsg]
      | err e => simp [dispatch, hu, hs, mediaMsg]
    rw [htr, hdisp]
    exact List.mem_append_right _ (by simp)
  · intro e hu m2 u hmem
    have hdisp : (dispatch ⟨tid, tty, "media", body, some f⟩ uid env).2 = [] := by
      simp [dispatch, hu]
    rw [htr, hdisp, List.append_nil] at hmem
    exact store_not_mem_sideEffects _ uid thopt m2 u hmem

/-- A media message input carrying a png file. -/
def msgMedia : MessageInput :=
  { threadId := "t1", threadType := "story", messageType := "media",
    body := .str "", file := some ⟨"cat.png", 2048, "image/png"⟩ }

/-- Witness for C7 at concrete inputs: the upload returns a url and
the stored message carries that url as body together with the
projected file metadata. -/
theorem media_message_persistence_witness :
    Effect.storeMessageEff
      (mediaMsg msgMedia ⟨"cat.png", 2048, "image/png"⟩
        "https://img.example/1") "alice" ∈
      (addMessage msgMedia (some "alice") addEnvStory).2 :=
  (media_message_persistence msgMedia "alice" addEnvStory
    ⟨"cat.png", 2048, "image/png"⟩ (some threadPlain) rfl rfl rfl).1
    "https://img.example/1" rfl

/-- C9: with the store succeeding, a stored message of a direct
message thread is returned unmodified by the enrichment step, with
no contextPermissions attached, whatever the loaders hold; a text
submission into any other thread kind, when the thread loader finds
the thread and the permission loader finds no record for the
sender, returns the stored message with a contextPermissions view
holding reputation 0, isModerator false and isOwner false and no
communityId field; and a media submission under the same loaders
additionally carries the resolved communityId in the view. -/
theorem enrichment_contextPermissions
    (uid newId : String) (env : AddEnv) (thopt : Option Thread) (t : Thread)
    (hth : env.getThread = .ok thopt)
    (hstore : env.store = .ok newId)
    (hload : env.loadThread = .ok (some t))
    (hperm : env.loadPerms = .ok none) :
    (∀ (stored : StoredMessage) (inc : Bool) (lt : Res (Option Thread))
        (lp : Res (Option Permissions)),
      stored.threadType = "directMessageThread" →
      enrichStored stored inc lt lp = .ok ⟨stored, none⟩) ∧
    (∀ msg : MessageInput, msg.messageType = "text" →
      msg.threadType ≠ "directMessageThread" →
      (addMessage msg (some uid) env).1 =
        .ok ⟨mkStored msg uid newId,
          some { communityId := none, reputation := 0,
                 isModerator := false, isOwner := false }⟩) ∧
    (∀ (msg : MessageInput) (f : FileMeta) (url : String),
      msg.messageType = "media" → msg.file = some f →
      env.upload = .ok url →
      msg.threadType ≠ "directMessageThread" →
      (addMessage msg (some uid) env).1 =
        .ok ⟨mkStored (mediaMsg msg f url) uid newId,
          some { communityId := some t.communityId, reputation := 0,
                 isModerator := false, isOwner := false }⟩) := by
  refine ⟨?_, ?_, ?_⟩
  · intro stored inc lt lp hdm
    simp [enrichStored, hdm]
  · intro msg hmt hndm
    rcases msg with ⟨tid, tty, mty, body, file⟩
    obtain rfl : mty = "text" := hmt
    have hndm2 : tty ≠ "directMessageThread" := hndm
    simp [addMessage, hth, dispatch, draftProcess, hstore, enrichStored,
      mkStored, hload, hperm, hndm2]
  · intro msg f url hmt hf hu hndm
    rcases msg with ⟨tid, tty, mty, body, file⟩
    obtain rfl : mty = "media" := hmt
    obtain rfl : file = some f := hf
    have hndm2 : tty ≠ "directMessageThread" := hndm
    simp [addMessage, hth, dispatch, hu, hstore, enrichStored,
      mkStored, mediaMsg, hload, hperm, hndm2]

/-- Witness for C9 at concrete inputs: a text submission by alice
into the story thread t1, with no permission record found, returns
the stored message with the default contextPermissions view. -/
theorem enrichment_contextPermissions_witness :
    (addMessage msgStoryText (some "alice") addEnvStory).1 =
      .ok ⟨mkStored msgStoryText "alice" "m9",
        some { communityId := none, reputation := 0,
               isModerator := false, isOwner := false }⟩ :=
  (enrichment_contextPermissions "alice" "m9" addEnvStory
    (some threadPlain) threadPlain rfl rfl rfl rfl).2.1
    msgStoryText rfl (by decide)

/-- Counterexample to C2: an unauthenticated deletion request ends
with the Unauthenticated UserError thrown across the API boundary
(the promise rejects), not returned as an error value; and an
upstream failure of the message fetch during deletion propagates as
the raw rejection rather than being converted to a user-facing
value carrying its message. -/
theorem error_boundary_counterexample :
    (deleteMessage "m1" none delEnvPlain).1 =
      .thrown (.userError signInToDeleteMsg) ∧
    (∀ s, (deleteMessage "m1" none delEnvPlain).1 ≠ .errorValue s) ∧
    (deleteMessage "m1" (some "bob")
        { delEnvPlain with getMessage := .err "connection reset" }).1 =
      .thrown (.raw "connection reset") ∧
    (∀ s, (deleteMessage "m1" (some "bob")
        { delEnvPlain with getMessage := .err "connection reset" }).1 ≠
      .errorValue s) := by
  refine ⟨rfl, ?_, rfl, ?_⟩ <;> intro s <;> simp [deleteMessage]

/-- C2 amended: the two resolvers treat the boundary differently.
In addMessage the taxonomy errors (Unauthenticated at line 44,
UnknownMessageType at line 153) are returned as user-facing error
values, and every failure inside the promise chains is caught by
the trailing catch and returned as an error value carrying the
original message: store failure on the text, draftjs and media
paths, upload failure on the media path, and thread-loader or
permission-loader failure during enrichment on any of the three
paths; only the initial thread fetch at line 47 precedes the
chains and rejects raw.  In deleteMessage every taxonomy error is
thrown as a UserError rejection (Unauthenticated at line 164,
NotFound at line 167, and both Forbidden forms at lines 172 and
190), and upstream failures are never caught or converted: the
message fetch, the thread fetch, the community permission lookup,
the channel permission lookup, the store delete, the
remaining-messages check and the participant removal each
propagate as raw rejections. -/
theorem error_boundary_amended :
    (∀ (m : MessageInput) (envA : AddEnv),
      (addMessage m none envA).1 = .errorValue signInToSendMsg) ∧
    (∀ (m : MessageInput) (uid : String) (envA : AddEnv) (th : Option Thread),
      envA.getThread = .ok th → m.messageType ≠ "text" →
      m.messageType ≠ "draftjs" → m.messageType ≠ "media" →
      (addMessage m (some uid) envA).1 = .errorValue unknownMessageTypeMsg) ∧
    (∀ (m : MessageInput) (uid : String) (envA : AddEnv) (th : Option Thread)
        (es : String),
      envA.getThread = .ok th → m.messageType = "text" →
      envA.store = .err es →
      (addMessage m (some uid) envA).1 = .errorValue es) ∧
    (∀ (m : MessageInput) (uid : String) (envA : AddEnv) (th : Option Thread)
        (d : DraftDoc) (es : String),
      envA.getThread = .ok th → m.messageType = "draftjs" →
      m.body = .draft d → envA.store = .err es →
      (addMessage m (some uid) envA).1 = .errorValue es) ∧
    (∀ (m : MessageInput) (uid : String) (envA : AddEnv) (th : Option Thread)
        (eu : String),
      envA.getThread = .ok th → m.messageType = "media" →
      envA.upload = .err eu →
      (addMessage m (some uid) envA).1 = .errorValue eu) ∧
    (∀ (m : MessageInput) (uid : String) (envA : AddEnv) (th : Option Thread)
        (f : FileMeta) (url es : String),
      envA.getThread = .ok th → m.messageType = "media" →
      m.file = some f → envA.upload = .ok url → envA.store = .err es →
      (addMessage m (some uid) envA).1 = .errorValue es) ∧
    (∀ (m : MessageInput) (uid : String) (envA : AddEnv) (th : Option Thread)
        (newId el : String),
      envA.getThread = .ok th → m.messageType = "text" →
      m.threadType ≠ "directMessageThread" →
      envA.store = .ok newId → envA.loadThread = .err el →
      (addMessage m (some uid) envA).1 = .errorValue el) ∧
    (∀ (m : MessageInput) (uid : String) (envA : AddEnv) (th : Option Thread)
        (t : Thread) (newId ep : String),
      envA.getThread = .ok th → m.messageType = "text" →
      m.threadType ≠ "directMessageThread" →
      envA.store = .ok newId → envA.loadThread = .ok (some t) →
      envA.loadPerms = .err ep →
      (addMessage m (some uid) envA).1 = .errorValue ep) ∧
    (∀ (m : MessageInput) (uid : String) (envA : AddEnv) (th : Option Thread)
        (d : DraftDoc) (newId el : String),
      envA.getThread = .ok th → m.messageType = "draftjs" →
      m.body = .draft d → m.threadType ≠ "directMessageThread" →
      envA.store = .ok newId → envA.loadThread = .err el →
      (addMessage m (some uid) envA).1 = .errorValue el) ∧
    (∀ (m : MessageInput) (uid : String) (envA : AddEnv) (th : Option Thread)
        (d : DraftDoc) (t : Thread) (newId ep : String),
      envA.getThread = .ok th → m.messageType = "draftjs" →
      m.body = .draft d → m.threadType ≠ "directMessageThread" →
      envA.store = .ok newId → envA.loadThread = .ok (some t) →
      envA.loadPerms = .err ep →
      (addMessage m (some uid) envA).1 = .errorValue ep) ∧
    (∀ (m : MessageInput) (uid : String) (envA : AddEnv) (th : Option Thread)
        (f : FileMeta) (url newId el : String),
      envA.getThread = .ok th → m.messageType = "media" →
      m.file = some f → m.threadType ≠ "directMessageThread" →
      envA.upload = .ok url → envA.store = .ok newId →
      envA.loadThread = .err el →
      (addMessage m (some uid) envA).1 = .errorValue el) ∧
    (∀ (m : MessageInput) (uid : String) (envA : AddEnv) (th : Option Thread)
        (f : FileMeta) (t : Thread) (url newId ep : String),
      envA.getThread = .ok th → m.messageType = "media" →
      m.file = some f → m.threadType ≠ "directMessageThread" →
      envA.upload = .ok url → envA.store = .ok newId →
      envA.loadThread = .ok (some t) → envA.loadPerms = .err ep →
      (addMessage m (some uid) envA).1 = .errorValue ep) ∧
    (∀ (m : MessageInput) (uid : String) (envA : AddEnv) (e : String),
      envA.getThread = .err e →
      (addMessage m (some uid) envA).1 = .thrown (.raw e)) ∧
    (∀ (i : String) (envD : DeleteEnv),
      (deleteMessage i none envD).1 =
        .thrown (.userError signInToDeleteMsg)) ∧
    (∀ (i uid : String) (envD : DeleteEnv),
      envD.getMessage = .ok none →
      (deleteMessage i (some uid) envD).1 =
        .thrown (.userError msgNotExistMsg)) ∧
    (∀ (i uid : String) (envD : DeleteEnv) (m : StoredMessage),
      envD.getMessage = .ok (some m) → m.senderId ≠ uid →
      m.threadType = "directMessageThread" →
      (deleteMessage i (some uid) envD).1 =
        .thrown (.userError ownMessagesOnlyMsg)) ∧
    (∀ (i uid : String) (envD : DeleteEnv) (m : StoredMessage) (t : Thread)
        (cp chp : Permissions),
      envD.getMessage = .ok (some m) → m.senderId ≠ uid →
      m.threadType ≠ "directMessageThread" →
      envD.getThread = .ok (some t) →
      envD.communityPerms = .ok (some cp) →
      envD.channelPerms = .ok (some chp) →
      (chp.isOwner || cp.isOwner || chp.isModerator || cp.isModerator) = false →
      (deleteMessage i (some uid) envD).1 =
        .thrown (.userError noPermissionMsg)) ∧
    (∀ (i uid : String) (envD : DeleteEnv) (e : String),
      envD.getMessage = .err e →
      (deleteMessage i (some uid) envD).1 = .thrown (.raw e)) ∧
    (∀ (i uid : String) (envD : DeleteEnv) (m : StoredMessage) (e : String),
      envD.getMessage = .ok (some m) → m.senderId ≠ uid →
      m.threadType ≠ "directMessageThread" → envD.getThread = .err e →
      (deleteMessage i (some uid) envD).1 = .thrown (.raw e)) ∧
    (∀ (i uid : String) (envD : DeleteEnv) (m : StoredMessage) (t : Thread)
        (e : String),
      envD.getMessage = .ok (some m) → m.senderId ≠ uid →
      m.threadType ≠ "directMessageThread" →
      envD.getThread = .ok (some t) → envD.communityPerms = .err e →
      (deleteMessage i (some uid) envD).1 = .thrown (.raw e)) ∧
    (∀ (i uid : String) (envD : DeleteEnv) (m : StoredMessage) (t : Thread)
        (cp : Option Permissions) (e : String),
      envD.getMessage = .ok (some m) → m.senderId ≠ uid →
      m.threadType ≠ "directMessageThread" →
      envD.getThread = .ok (some t) → envD.communityPerms = .ok cp →
      envD.channelPerms = .err e →
      (deleteMessage i (some uid) envD).1 = .thrown (.raw e)) ∧
    (∀ (i uid : String) (envD : DeleteEnv) (m : StoredMessage) (e : String),
      envD.getMessage = .ok (some m) → m.senderId = uid →
      envD.deleteResult = .err e →
      (deleteMessage i (some uid) envD).1 = .thrown (.raw e)) ∧
    (∀ (i uid : String) (envD : DeleteEnv) (m : StoredMessage) (e : String),
      envD.getMessage = .ok (some m) → m.senderId = uid →
      m.threadType ≠ "directMessageThread" →
      envD.deleteResult = .ok () → envD.hasMoreMessages = .err e →
      (deleteMessage i (some uid) envD).1 = .thrown (.raw e)) ∧
    (∀ (i uid : String) (envD : DeleteEnv) (m : StoredMessage) (e : String),
      envD.getMessage = .ok (some m) → m.senderId = uid →
      m.threadType ≠ "directMessageThread" →
      envD.deleteResult = .ok () → envD.hasMoreMessages = .ok false →
      envD.deleteParticipantResult = .err e →
      (deleteMessage i (some uid) envD).1 = .thrown (.raw e)) := by
  refine ⟨fun _ _ => rfl, ?_, ?_, ?_, ?_, ?_, ?_, ?_, ?_, ?_, ?_, ?_, ?_,
    fun _ _ => rfl, ?_, ?_, ?_, ?_, ?_, ?_, ?_, ?_, ?_, ?_⟩
  · intro m uid envA th hth h1 h2 h3
    have b1 : (m.messageType == "text") = false := by simp [h1]
    have b2 : (m.messageType == "draftjs") = false := by simp [h2]
    have b3 : (m.messageType == "media") = false := by simp [h3]
    simp [addMessage, hth, dispatch, b1, b2, b3]
  · intro m uid envA th es hth hmt hstore
    rcases m with ⟨tid, tty, mty, body, file⟩
    obtain rfl : mty = "text" := hmt
    simp [addMessage, hth, dispatch, draftProcess, hstore]
  · intro m uid envA th d es hth hmt hbody hstore
    rcases m with ⟨tid, tty, mty, body, file⟩
    obtain rfl : mty = "draftjs" := hmt
    obtain rfl : body = MsgBody.draft d := hbody
    simp [addMessage, hth, dispatch, draftProcess, hstore]
  · intro m uid envA th eu hth hmt hu
    rcases m with ⟨tid, tty, mty, body, file⟩
    obtain rfl : mty = "media" := hmt
    simp [addMessage, hth, dispatch, hu]
  · intro m uid envA th f url es hth hmt hf hu hstore
    rcases m with ⟨tid, tty, mty, body, file⟩
    obtain rfl : mty = "media" := hmt
    obtain rfl : file = some f := hf
    simp [addMessage, hth, dispatch, hu, hstore]
  · intro m uid envA th newId el hth hmt hndm hstore hload
    rcases m with ⟨tid, tty, mty, body, file⟩
    obtain rfl : mty = "text" := hmt
    have hndm2 : tty ≠ "directMessageThread" := hndm
    simp [addMessage, hth, dispatch, draftProcess, hstore, enrichStored,
      mkStored, hload, hndm2]
  · intro m uid envA th t newId ep hth hmt hndm hstore hload hperm
    rcases m with ⟨tid, tty, mty, body, file⟩
    obtain rfl : mty = "text" := hmt
    have hndm2 : tty ≠ "directMessageThread" := hndm
    simp [addMessage, hth, dispatch, draftProcess, hstore, enrichStored,
      mkStored, hload, hperm, hndm2]
  · intro m uid envA th d newId el hth hmt hbody hndm hstore hload
    rcases m with ⟨tid, tty, mty, body, file⟩
    obtain rfl : mty = "draftjs" := hmt
    obtain rfl : body = MsgBody.draft d := hbody
    have hndm2 : tty ≠ "directMessageThread" := hndm
    simp [addMessage, hth, dispatch, draftProcess, hstore, enrichStored,
      mkStored, hload, hndm2]
  · intro m uid envA th d t newId ep hth hmt hbody hndm hstore hload hperm
    rcases m with ⟨tid, tty, mty, body, file⟩
    obtain rfl : mty = "draftjs" := hmt
    obtain rfl : body = MsgBody.draft d := hbody
    have hndm2 : tty ≠ "directMessageThread" := hndm
    simp [addMessage, hth, dispatch, draftProcess, hstore, enrichStored,
      mkStored, hload, hperm, hndm2]
  · intro m uid envA th f url newId el hth hmt hf hndm hu hstore hload
    rcases m with ⟨tid, tty, mty, body, file⟩
    obtain rfl : mty = "media" := hmt
    obtain rfl : file = some f := hf
    have hndm2 : tty ≠ "directMessageThread" := hndm
    simp [addMessage, hth, dispatch, hu, hstore, enrichStored,
      mkStored, mediaMsg, hload, hndm2]
  · intro m uid envA th f t url newId ep hth hmt hf hndm hu hstore hload hperm
    rcases m with ⟨tid, tty, mty, body, file⟩
    obtain rfl : mty = "media" := hmt
    obtain rfl : file = some f := hf
    have hndm2 : tty ≠ "directMessageThread" := hndm
    simp [addMessage, hth, dispatch, hu, hstore, enrichStored,
      mkStored, mediaMsg, hload, hperm, hndm2]
  · intro m uid envA e hgt
    simp [addMessage, hgt]
  · intro i uid envD hm
    simp [deleteMessage, hm]
  · intro i uid envD m hm hs ht
    have hauth : authorize m uid envD =
        some (.userError ownMessagesOnlyMsg) := by
      simp [authorize, hs, ht]
    simp [deleteMessage, hm, hauth]
  · intro i uid envD m t cp chp hm hs ht hgt hcp hchp hflag
    have hauth : authorize m uid envD =
        some (.userError noPermissionMsg) := by
      simp [authorize, hs, ht, hgt, hcp, hchp, canModerateOf_some, hflag]
    simp [deleteMessage, hm, hauth]
  · intro i uid envD e hm
    simp [deleteMessage, hm]
  · intro i uid envD m e hm hs ht hgt
    have hauth : authorize m uid envD = some (.raw e) := by
      simp [authorize, hs, ht, hgt]
    simp [deleteMessage, hm, hauth]
  · intro i uid envD m t e hm hs ht hgt hcp
    have hauth : authorize m uid envD = some (.raw e) := by
      simp [authorize, hs, ht, hgt, hcp]
    simp [deleteMessage, hm, hauth]
  · intro i uid envD m t cp e hm hs ht hgt hcp hchp
    have hauth : authorize m uid envD = some (.raw e) := by
      simp [authorize, hs, ht, hgt, hcp, hchp]
    simp [deleteMessage, hm, hauth]
  · intro i uid envD m e hm hs hdel
    have hauth : authorize m uid envD = none := by
      simp [authorize, hs]
    simp [deleteMessage, hm, hauth, hdel]
  · intro i uid envD m e hm hs ht hdel hmore
    have hauth : authorize m uid envD = none := by
      simp [authorize, hs]
    simp [deleteMessage, hm, hauth, hdel, hmore, ht]
  · intro i uid envD m e hm hs ht hdel hmore hpart
    have hauth : authorize m uid envD = none := by
      simp [authorize, hs]
    simp [deleteMessage, hm, hauth, hdel, hmore, hpart, ht]

/-- Witness for the amended C2, exercising every conjunct at
concrete inputs: both unauthenticated branches, an unrecognized
message type, failing store on each of the three paths, a failing
upload, failing enrichment loaders on each path, the raw rejection
of the initial thread fetch, the thrown NotFound and both thrown
Forbidden errors, and raw rejections of each of the six delete-path
collaborators. -/
theorem error_boundary_amended_witness :
    ((addMessage msgStoryText none addEnvStory).1 =
      .errorValue signInToSendMsg) ∧
    ((addMessage { msgStoryText with messageType := "video" }
        (some "alice") addEnvStory).1 =
      .errorValue unknownMessageTypeMsg) ∧
    ((addMessage msgStoryText (some "alice")
        { addEnvStory with store := .err "disk full" }).1 =
      .errorValue "disk full") ∧
    ((addMessage msgDraftCode (some "alice")
        { addEnvStory with store := .err "disk full" }).1 =
      .errorValue "disk full") ∧
    ((addMessage msgMedia (some "alice")
        { addEnvStory with upload := .err "bucket gone" }).1 =
      .errorValue "bucket gone") ∧
    ((addMessage msgMedia (some "alice")
        { addEnvStory with store := .err "disk full" }).1 =
      .errorValue "disk full") ∧
    ((addMessage msgStoryText (some "alice")
        { addEnvStory with loadThread := .err "loader down" }).1 =
      .errorValue "loader down") ∧
    ((addMessage msgStoryText (some "alice")
        { addEnvStory with loadPerms := .err "perm loader down" }).1 =
      .errorValue "perm loader down") ∧
    ((addMessage msgDraftCode (some "alice")
        { addEnvStory with loadThread := .err "loader down" }).1 =
      .errorValue "loader down") ∧
    ((addMessage msgDraftCode (some "alice")
        { addEnvStory with loadPerms := .err "perm loader down" }).1 =
      .errorValue "perm loader down") ∧
    ((addMessage msgMedia (some "alice")
        { addEnvStory with loadThread := .err "loader down" }).1 =
      .errorValue "loader down") ∧
    ((addMessage msgMedia (some "alice")
        { addEnvStory with loadPerms := .err "perm loader down" }).1 =
      .errorValue "perm loader down") ∧
    ((addMessage msgStoryText (some "alice")
        { addEnvStory with getThread := .err "db down" }).1 =
      .thrown (.raw "db down")) ∧
    ((deleteMessage "m1" none delEnvPlain).1 =
      .thrown (.userError signInToDeleteMsg)) ∧
    ((deleteMessage "m1" (some "alice")
        { delEnvPlain with getMessage := .ok none }).1 =
      .thrown (.userError msgNotExistMsg)) ∧
    ((deleteMessage "m1" (some "bob")
        { delEnvPlain with getMessage := .ok (some storedAliceDM) }).1 =
      .thrown (.userError ownMessagesOnlyMsg)) ∧
    ((deleteMessage "m1" (some "carl") delEnvPlain).1 =
      .thrown (.userError noPermissionMsg)) ∧
    ((deleteMessage "m1" (some "bob")
        { delEnvPlain with getMessage := .err "timeout" }).1 =
      .thrown (.raw "timeout")) ∧
    ((deleteMessage "m1" (some "bob")
        { delEnvPlain with getThread := .err "db down" }).1 =
      .thrown (.raw "db down")) ∧
    ((deleteMessage "m1" (some "bob")
        { delEnvPlain with communityPerms := .err "perm svc down" }).1 =
      .thrown (.raw "perm svc down")) ∧
    ((deleteMessage "m1" (some "bob")
        { delEnvPlain with channelPerms := .err "perm svc down" }).1 =
      .thrown (.raw "perm svc down")) ∧
    ((deleteMessage "m1" (some "alice")
        { delEnvPlain with deleteResult := .err "write failed" }).1 =
      .thrown (.raw "write failed")) ∧
    ((deleteMessage "m1" (some "alice")
        { delEnvPlain with hasMoreMessages := .err "query failed" }).1 =
      .thrown (.raw "query failed")) ∧
    ((deleteMessage "m1" (some "alice")
        { delEnvPlain with
            hasMoreMessages := .ok false,
            deleteParticipantResult := .err "remove failed" }).1 =
      .thrown (.raw "remove failed")) := by
  obtain ⟨a1, a2, a3, a4, a5, a6, a7, a8, a9, a10, a11, a12, a13,
    d1, d2, d3, d4, d5, d6, d7, d8, d9, d10, d11⟩ := error_boundary_amended
  refine ⟨a1 msgStoryText addEnvStory, ?_, ?_, ?_, ?_, ?_, ?_, ?_, ?_, ?_,
    ?_, ?_, ?_, d1 "m1" delEnvPlain, ?_, ?_, ?_, ?_, ?_, ?_, ?_, ?_, ?_, ?_⟩
  · exact a2 { msgStoryText with messageType := "video" } "alice" addEnvStory
      (some threadPlain) rfl (by decide) (by decide) (by decide)
  · exact a3 msgStoryText "alice"
      { addEnvStory with store := .err "disk full" }
      (some threadPlain) "disk full" rfl rfl rfl
  · exact a4 msgDraftCode "alice"
      { addEnvStory with store := .err "disk full" }
      (some threadPlain) ⟨[codeBlock]⟩ "disk full" rfl rfl rfl rfl
  · exact a5 msgMedia "alice"
      { addEnvStory with upload := .err "bucket gone" }
      (some threadPlain) "bucket gone" rfl rfl rfl
  · exact a6 msgMedia "alice"
      { addEnvStory with store := .err "disk full" }
      (some threadPlain) ⟨"cat.png", 2048, "image/png"⟩
      "https://img.example/1" "disk full" rfl rfl rfl rfl rfl
  · exact a7 msgStoryText "alice"
      { addEnvStory with loadThread := .err "loader down" }
      (some threadPlain) "m9" "loader down" rfl rfl (by decide) rfl rfl
  · exact a8 msgStoryText "alice"
      { addEnvStory with loadPerms := .err "perm loader down" }
      (some threadPlain) threadPlain "m9" "perm loader down"
      rfl rfl (by decide) rfl rfl rfl
  · exact a9 msgDraftCode "alice"
      { addEnvStory with loadThread := .err "loader down" }
      (some threadPlain) ⟨[codeBlock]⟩ "m9" "loader down"
      rfl rfl rfl (by decide) rfl rfl
  · exact a10 msgDraftCode "alice"
      { addEnvStory with loadPerms := .err "perm loader down" }
      (some threadPlain) ⟨[codeBlock]⟩ threadPlain "m9" "perm loader down"
      rfl rfl rfl (by decide) rfl rfl rfl
  · exact a11 msgMedia "alice"
      { addEnvStory with loadThread := .err "loader down" }
      (some threadPlain) ⟨"cat.png", 2048, "image/png"⟩
      "https://img.example/1" "m9" "loader down"
      rfl rfl rfl (by decide) rfl rfl rfl
  · exact a12 msgMedia "alice"
      { addEnvStory with loadPerms := .err "perm loader down" }
      (some threadPlain) ⟨"cat.png", 2048, "image/png"⟩ threadPlain
      "https://img.example/1" "m9" "perm loader down"
      rfl rfl rfl (by decide) rfl rfl rfl rfl
  · exact a13 msgStoryText "alice"
      { addEnvStory with getThread := .err "db down" } "db down" rfl
  · exact d2 "m1" "alice" { delEnvPlain with getMessage := .ok none } rfl
  · exact d3 "m1" "bob"
      { delEnvPlain with getMessage := .ok (some storedAliceDM) }
      storedAliceDM rfl (by decide) rfl
  · exact d4 "m1" "carl" delEnvPlain storedAliceStory threadPlain
      permsMember permsMember rfl (by decide) (by decide) rfl rfl rfl
      (by decide)
  · exact d5 "m1" "bob" { delEnvPlain with getMessage := .err "timeout" }
      "timeout" rfl
  · exact d6 "m1" "bob" { delEnvPlain with getThread := .err "db down" }
      storedAliceStory "db down" rfl (by decide) (by decide) rfl
  · exact d7 "m1" "bob"
      { delEnvPlain with communityPerms := .err "perm svc down" }
      storedAliceStory threadPlain "perm svc down"
      rfl (by decide) (by decide) rfl rfl
  · exact d8 "m1" "bob"
      { delEnvPlain with channelPerms := .err "perm svc down" }
      storedAliceStory threadPlain (some permsMember) "perm svc down"
      rfl (by decide) (by decide) rfl rfl rfl
  · exact d9 "m1" "alice"
      { delEnvPlain with deleteResult := .err "write failed" }
      storedAliceStory "write failed" rfl rfl rfl
  · exact d10 "m1" "alice"
      { delEnvPlain with hasMoreMessages := .err "query failed" }
      storedAliceStory "query failed" rfl rfl (by decide) rfl rfl
  · exact d11 "m1" "alice"
      { delEnvPlain with
          hasMoreMessages := .ok false,
          deleteParticipantResult := .err "remove failed" }
      storedAliceStory "remove failed" rfl rfl (by decide) rfl rfl rfl
